import Mathlib

/-!
Verification development for the HASSH fingerprint tool (`hassh.py`).

The Python source is shallowly embedded below: packets are records of the
dissected fields the program reads, the per-packet body of
`process_pcap_file` becomes a step function threading the banner
dictionary, and `hashlib.md5(...).hexdigest()` is embedded as an
executable MD5 over the UTF-8 bytes of the input string, with all 32-bit
arithmetic carried out on `Nat` modulo `2 ^ 32`.
-/

namespace Hassh

/-! ## MD5 (embedding of `hashlib.md5(s.encode()).hexdigest()`) -/

/-- Modulus for 32-bit machine arithmetic. -/
def M32 : Nat := 4294967296

/-- All-ones 32-bit mask, used to express bitwise complement as xor. -/
def mask32 : Nat := 4294967295

/-- Left-rotation of a 32-bit word. -/
def rotl32 (x n : Nat) : Nat :=
  let y := x % M32
  ((y <<< n) % M32) ||| (y >>> (32 - n))

/-- UTF-8 encoding of one character, as a list of byte values. -/
def utf8Bytes (c : Char) : List Nat :=
  let n := c.toNat
  if n < 128 then [n]
  else if n < 2048 then [192 ||| (n / 64), 128 ||| (n % 64)]
  else if n < 65536 then
    [224 ||| (n / 4096), 128 ||| (n / 64 % 64), 128 ||| (n % 64)]
  else
    [240 ||| (n / 262144), 128 ||| (n / 4096 % 64),
     128 ||| (n / 64 % 64), 128 ||| (n % 64)]

/-- UTF-8 bytes of a string (embedding of Python `str.encode()`). -/
def strBytes (s : String) : List Nat := s.data.flatMap utf8Bytes

/-- Per-round sine-derived constants of MD5. -/
def K64 : List Nat :=
  [0xd76aa478, 0xe8c7b756, 0x242070db, 0xc1bdceee,
   0xf57c0faf, 0x4787c62a, 0xa8304613, 0xfd469501,
   0x698098d8, 0x8b44f7af, 0xffff5bb1, 0x895cd7be,
   0x6b901122, 0xfd987193, 0xa679438e, 0x49b40821,
   0xf61e2562, 0xc040b340, 0x265e5a51, 0xe9b6c7aa,
   0xd62f105d, 0x02441453, 0xd8a1e681, 0xe7d3fbc8,
   0x21e1cde6, 0xc33707d6, 0xf4d50d87, 0x455a14ed,
   0xa9e3e905, 0xfcefa3f8, 0x676f02d9, 0x8d2a4c8a,
   0xfffa3942, 0x8771f681, 0x6d9d6122, 0xfde5380c,
   0xa4beea44, 0x4bdecfa9, 0xf6bb4b60, 0xbebfbc70,
   0x289b7ec6, 0xeaa127fa, 0xd4ef3085, 0x04881d05,
   0xd9d4d039, 0xe6db99e5, 0x1fa27cf8, 0xc4ac5665,
   0xf4292244, 0x432aff97, 0xab9423a7, 0xfc93a039,
   0x655b59c3, 0x8f0ccc92, 0xffeff47d, 0x85845dd1,
   0x6fa87e4f, 0xfe2ce6e0, 0xa3014314, 0x4e0811a1,
   0xf7537e82, 0xbd3af235, 0x2ad7d2bb, 0xeb86d391]

/-- Per-round left-rotation amounts of MD5. -/
def S64 : List Nat :=
  [7, 12, 17, 22, 7, 12, 17, 22, 7, 12, 17, 22, 7, 12, 17, 22,
   5, 9, 14, 20, 5, 9, 14, 20, 5, 9, 14, 20, 5, 9, 14, 20,
   4, 11, 16, 23, 4, 11, 16, 23, 4, 11, 16, 23, 4, 11, 16, 23,
   6, 10, 15, 21, 6, 10, 15, 21, 6, 10, 15, 21, 6, 10, 15, 21]

/-- Byte of a message at an index, zero past the end. -/
def getByte (l : List Nat) (i : Nat) : Nat := l.getD i 0

/-- Little-endian 32-bit word `g` of a 64-byte chunk. -/
def wordAt (m : List Nat) (g : Nat) : Nat :=
  getByte m (4 * g) + 256 * getByte m (4 * g + 1) +
    65536 * getByte m (4 * g + 2) + 16777216 * getByte m (4 * g + 3)

/-- One of the 64 MD5 rounds on the state `(a, b, c, d)`. -/
def md5Round (m : List Nat) (st : Nat × Nat × Nat × Nat) (i : Nat) :
    Nat × Nat × Nat × Nat :=
  let a := st.1
  let b := st.2.1
  let c := st.2.2.1
  let d := st.2.2.2
  let fg : Nat × Nat :=
    if i < 16 then ((b &&& c) ||| ((b ^^^ mask32) &&& d), i)
    else if i < 32 then ((d &&& b) ||| ((d ^^^ mask32) &&& c), (5 * i + 1) % 16)
    else if i < 48 then (b ^^^ c ^^^ d, (3 * i + 5) % 16)
    else (c ^^^ (b ||| (d ^^^ mask32)), (7 * i) % 16)
  let tmp := (a + fg.1 + K64.getD i 0 + wordAt m fg.2) % M32
  (d, (b + rotl32 tmp (S64.getD i 0)) % M32, b, c)

/-- Process one 64-byte chunk of the padded message. -/
def md5Chunk (chunk : List Nat) (st : Nat × Nat × Nat × Nat) :
    Nat × Nat × Nat × Nat :=
  let r := (List.range 64).foldl (md5Round chunk) st
  ((st.1 + r.1) % M32, (st.2.1 + r.2.1) % M32,
   (st.2.2.1 + r.2.2.1) % M32, (st.2.2.2 + r.2.2.2) % M32)

/-- Fold over the chunks of the padded message; the fuel is the chunk count. -/
def md5Loop : Nat → List Nat → Nat × Nat × Nat × Nat → Nat × Nat × Nat × Nat
  | 0, _, st => st
  | n + 1, bytes, st => md5Loop n (bytes.drop 64) (md5Chunk (bytes.take 64) st)

/-- Little-endian byte decomposition of a 32-bit word. -/
def le4 (n : Nat) : List Nat :=
  [n % 256, n / 256 % 256, n / 65536 % 256, n / 16777216 % 256]

/-- Little-endian byte decomposition of the 64-bit message bit length. -/
def le8 (n : Nat) : List Nat :=
  [n % 256, n / 256 % 256, n / 65536 % 256, n / 16777216 % 256,
   n / 4294967296 % 256, n / 1099511627776 % 256,
   n / 281474976710656 % 256, n / 72057594037927936 % 256]

/-- MD5 padding: a `0x80` byte, zeros to 56 mod 64, then the bit length. -/
def md5pad (msg : List Nat) : List Nat :=
  msg ++ 128 :: List.replicate ((119 - msg.length % 64) % 64) 0 ++
    le8 (msg.length * 8)

/-- MD5 digest of a byte sequence, as its 16 bytes. -/
def md5bytes (msg : List Nat) : List Nat :=
  let padded := md5pad msg
  let st := md5Loop (padded.length / 64) padded
    (0x67452301, 0xefcdab89, 0x98badcfe, 0x10325476)
  le4 st.1 ++ le4 st.2.1 ++ le4 st.2.2.1 ++ le4 st.2.2.2

/-- Two lowercase hex characters of one byte. -/
def hexPair (b : Nat) : List Char :=
  [Nat.digitChar (b / 16 % 16), Nat.digitChar (b % 16)]

/-- Embedding of `md5(s.encode()).hexdigest()`: lowercase hex MD5 of the
UTF-8 bytes of `s`. -/
def md5hex (s : String) : String :=
  String.mk ((md5bytes (strBytes s)).flatMap hexPair)

set_option maxRecDepth 100000 in
/-- Validation against the RFC 1321 test vector for the empty string. -/
theorem md5hex_empty : md5hex "" = "d41d8cd98f00b204e9800998ecf8427e" := by rfl

set_option maxRecDepth 100000 in
/-- Validation against the RFC 1321 test vector for "abc". -/
theorem md5hex_abc : md5hex "abc" = "900150983cd24fb0d6963f7d28e17f72" := by rfl

/-- Recognizer for the characters `0`-`9` and `a`-`f`. -/
def isLowerHex (c : Char) : Bool :=
  (decide ('0' ≤ c) && decide (c ≤ '9')) || (decide ('a' ≤ c) && decide (c ≤ 'f'))

theorem digitChar_isLowerHex : ∀ y < 16, isLowerHex (Nat.digitChar y) = true := by
  decide

theorem md5bytes_length (msg : List Nat) : (md5bytes msg).length = 16 := by
  simp [md5bytes, le4]

theorem flatMap_hexPair_length (l : List Nat) :
    (l.flatMap hexPair).length = 2 * l.length := by
  induction l with
  | nil => simp
  | cons b t ih => simp [hexPair, ih]; omega

/-- The hex digest always has exactly 32 characters. -/
theorem md5hex_length (s : String) : (md5hex s).length = 32 := by
  show ((md5bytes (strBytes s)).flatMap hexPair).length = 32
  rw [flatMap_hexPair_length, md5bytes_length]

/-- Every character of the hex digest is a lowercase hex digit. -/
theorem md5hex_lower (s : String) :
    ∀ c ∈ (md5hex s).data, isLowerHex c = true := by
  intro c hc
  have hc2 : c ∈ (md5bytes (strBytes s)).flatMap hexPair := hc
  obtain ⟨b, _, hcb⟩ := List.mem_flatMap.mp hc2
  have h16 : ∀ x : Nat, x % 16 < 16 := fun x => Nat.mod_lt _ (by omega)
  simp only [hexPair, List.mem_cons, List.not_mem_nil, or_false] at hcb
  rcases hcb with h | h
  · exact h ▸ digitChar_isLowerHex _ (h16 _)
  · exact h ▸ digitChar_isLowerHex _ (h16 _)

/-! ## Data model

One dissected packet event, holding exactly the fields `hassh.py` reads.
An `Option String` field is `none` when the field name is absent from
`packet.ssh.field_names`, mirroring the `in ... field_names` presence
checks; ports are the parsed integers compared by `int(...)`. -/

structure Packet where
  highest_layer : String
  protocol : Option String
  message_code : Option String
  kex_algorithms : Option String
  encryption_algorithms_client_to_server : Option String
  mac_algorithms_client_to_server : Option String
  compression_algorithms_client_to_server : Option String
  encryption_algorithms_server_to_client : Option String
  mac_algorithms_server_to_client : Option String
  compression_algorithms_server_to_client : Option String
  languages_client_to_server : Option String
  languages_server_to_client : Option String
  ip_src : String
  ip_dst : String
  tcp_srcport : Nat
  tcp_dstport : Nat
  analysis_retransmission : Bool
  analysis_spurious_retransmission : Bool
  sniff_time : String
  faulty : Bool
  deriving DecidableEq

/-- The dictionary record returned by `client_hassh` (Python dict keys kept
as field names; `client` is the correlated protocol banner, `None` in
Python when no banner was found, hence `Option String` here). -/
structure ClientRecord where
  timestamp : String
  sourceIp : String
  destinationIp : String
  sourcePort : Nat
  destinationPort : Nat
  client : Option String
  hassh : String
  hasshAlgorithms : String
  hasshVersion : String
  ckex : String
  ceacts : String
  cmacts : String
  ccacts : String
  clcts : String
  clstc : String
  ceastc : String
  cmastc : String
  ccastc : String
  deriving DecidableEq

/-- The dictionary record returned by `server_hassh`. -/
structure ServerRecord where
  timestamp : String
  sourceIp : String
  destinationIp : String
  sourcePort : Nat
  destinationPort : Nat
  server : Option String
  hasshServer : String
  hasshServerAlgorithms : String
  hasshVersion : String
  skex : String
  seastc : String
  smastc : String
  scastc : String
  slcts : String
  slstc : String
  seacts : String
  smacts : String
  scacts : String
  deriving DecidableEq

/-- The dictionary returned by `event_log`. -/
structure EventRecord where
  timestamp : String
  eventType : String
  eventMessage : String
  sourceIp : String
  destinationIp : String
  sourcePort : Nat
  destinationPort : Nat
  deriving DecidableEq

/-- One element of the `results` list of `process_pcap_file`: a client
fingerprint dict, a server fingerprint dict, or a retransmission event
dict. The constructor tells which keys the Python dict has: a client
record has key `hassh`, a server record has key `hasshServer`, an event
record has neither. -/
inductive Record where
  | clientFP (r : ClientRecord)
  | serverFP (r : ServerRecord)
  | event (e : EventRecord)
  deriving DecidableEq

/-- Whether a record is a fingerprint record rather than an event. -/
def isFingerprint : Record → Bool
  | .clientFP _ => true
  | .serverFP _ => true
  | .event _ => false

/-- The protocol-banner field of a record (`client` or `server` key). -/
def recProtocol : Record → Option String
  | .clientFP r => r.client
  | .serverFP r => r.server
  | .event _ => none

/-- The banner cache `protocol_dict`, a last-write-wins map embedded as an
association list whose most recent write is found first. -/
def Dict := List (String × String)

/-! ## Embedded program functions -/

/-- Embedding of Python `sep.join(parts)`. -/
def pyJoin (sep : String) : List String → String
  | [] => ""
  | [x] => x
  | x :: xs => x ++ sep ++ pyJoin sep xs

/-- Embedding of Python string formatting of a possibly-`None` value:
`"{}".format(None)` yields the text `None`. -/
def pyStr : Option String → String
  | some s => s
  | none => "None"

/-- The flow key the source builds, `'{}:{}_{}:{}'.format(srcip, sport,
dstip, dport)`, where every code path (hassh.py lines 49-50, 155-156,
259-260, 317-318) assigns `dport = packet.tcp.srcport`, so the source
port appears in both port slots. -/
def mkKeyCode (p : Packet) : String :=
  p.ip_src ++ ":" ++ toString p.tcp_srcport ++ "_" ++
    p.ip_dst ++ ":" ++ toString p.tcp_srcport

/-- Modelled from the spec: the FlowKey of §3, the ordered 4-tuple
(sourceIP, sourcePort, destinationIP, destinationPort) with the fourth
component taken from the packet's destination port; stated only for
comparison with `mkKeyCode`, which is what the code computes. -/
def flowKeySpec (p : Packet) : String :=
  p.ip_src ++ ":" ++ toString p.tcp_srcport ++ "_" ++
    p.ip_dst ++ ":" ++ toString p.tcp_dstport

/-- Embedding of `protocol_dict[key] = protocol` when the packet carries a
protocol version string (hassh.py lines 45-52). -/
def updBanner (pdict : Dict) (p : Packet) : Dict :=
  match p.protocol with
  | some proto => (mkKeyCode p, proto) :: pdict
  | none => pdict

/-- Embedding of `client_hassh(packet, pdict)` (hassh.py lines 253-308). -/
def client_hassh (p : Packet) (pdict : Dict) : ClientRecord :=
  let protocol := List.lookup (mkKeyCode p) pdict
  let ckex := p.kex_algorithms.getD ""
  let ceacts := p.encryption_algorithms_client_to_server.getD ""
  let cmacts := p.mac_algorithms_client_to_server.getD ""
  let ccacts := p.compression_algorithms_client_to_server.getD ""
  let clcts := p.languages_client_to_server.getD ""
  let clstc := p.languages_server_to_client.getD ""
  let ceastc := p.encryption_algorithms_server_to_client.getD ""
  let cmastc := p.mac_algorithms_server_to_client.getD ""
  let ccastc := p.compression_algorithms_server_to_client.getD ""
  let hassh_str := pyJoin ";" [ckex, ceacts, cmacts, ccacts]
  { timestamp := p.sniff_time
    sourceIp := p.ip_src
    destinationIp := p.ip_dst
    sourcePort := p.tcp_srcport
    destinationPort := p.tcp_dstport
    client := protocol
    hassh := md5hex hassh_str
    hasshAlgorithms := hassh_str
    hasshVersion := "1.0"
    ckex := ckex
    ceacts := ceacts
    cmacts := cmacts
    ccacts := ccacts
    clcts := clcts
    clstc := clstc
    ceastc := ceastc
    cmastc := cmastc
    ccastc := ccastc }

/-- Embedding of `server_hassh(packet, pdict)` (hassh.py lines 311-366). -/
def server_hassh (p : Packet) (pdict : Dict) : ServerRecord :=
  let protocol := List.lookup (mkKeyCode p) pdict
  let skex := p.kex_algorithms.getD ""
  let seastc := p.encryption_algorithms_server_to_client.getD ""
  let smastc := p.mac_algorithms_server_to_client.getD ""
  let scastc := p.compression_algorithms_server_to_client.getD ""
  let slcts := p.languages_client_to_server.getD ""
  let slstc := p.languages_server_to_client.getD ""
  let seacts := p.encryption_algorithms_client_to_server.getD ""
  let smacts := p.mac_algorithms_client_to_server.getD ""
  let scacts := p.compression_algorithms_client_to_server.getD ""
  let hasshs_str := pyJoin ";" [skex, seastc, smastc, scastc]
  { timestamp := p.sniff_time
    sourceIp := p.ip_src
    destinationIp := p.ip_dst
    sourcePort := p.tcp_srcport
    destinationPort := p.tcp_dstport
    server := protocol
    hasshServer := md5hex hasshs_str
    hasshServerAlgorithms := hasshs_str
    hasshVersion := "1.0"
    skex := skex
    seastc := seastc
    smastc := smastc
    scastc := scastc
    slcts := slcts
    slstc := slstc
    seacts := seacts
    smacts := smacts
    scacts := scacts }

/-- Embedding of `event_log(packet, event="retransmission")`. -/
def event_log (p : Packet) : EventRecord :=
  { timestamp := p.sniff_time
    eventType := "retransmission"
    eventMessage := "This packet is a (suspected) retransmission"
    sourceIp := p.ip_src
    destinationIp := p.ip_dst
    sourcePort := p.tcp_srcport
    destinationPort := p.tcp_dstport }

/-- One iteration of the `for packet in cap` loop body of
`process_pcap_file` (hassh.py lines 41-121): returns the updated
`protocol_dict` and the records appended to `results` by this packet. -/
def stepPacket (fprint : String) (pdict : Dict) (p : Packet) :
    Dict × List Record :=
  if p.highest_layer ≠ "SSH" then (pdict, [])
  else
    let d2 := updBanner pdict p
    if p.message_code ≠ some "20" then (d2, [])
    else if p.analysis_retransmission || p.analysis_spurious_retransmission then
      (d2, [Record.event (event_log p)])
    else if (fprint = "client" ∨ fprint = "all") ∧
        p.tcp_dstport < p.tcp_srcport then
      (d2, [Record.clientFP (client_hassh p d2)])
    else if (fprint = "server" ∨ fprint = "all") ∧
        p.tcp_srcport < p.tcp_dstport then
      (d2, [Record.serverFP (server_hassh p d2)])
    else (d2, [])

/-- The packet loop of `process_pcap_file`. The whole loop sits inside one
`try`/`except` (hassh.py lines 40-126): a packet whose processing raises
(`faulty`) makes the loop abort, keeping only records produced so far. -/
def processPcapAux (fprint : String) : List Packet → Dict → List Record
  | [], _ => []
  | p :: rest, pdict =>
    if p.faulty then []
    else
      let so := stepPacket fprint pdict p
      so.2 ++ processPcapAux fprint rest so.1

/-- Embedding of `process_pcap_file(pcap, fprint, da)`: the ordered
`results` list returned for a bounded sequence of dissected packets. -/
def process_pcap_file (fprint : String) (pkts : List Packet) : List Record :=
  processPcapAux fprint pkts []

/-- The fixed CSV header row of `main` and `live_capture`. -/
def csvHeader : String :=
  "timestamp,sourceIp,destinationIp,sourcePort,destinationPort," ++
    "hasshType,protocolString,hassh,hasshAlgorithms,kexAlgs,encAlgs," ++
    "macAlgs,cmpAlgs"

/-- The row template of `csv_logging` applied to its thirteen values. -/
def csvRow (ts si di : String) (sp dp : Nat)
    (t pr h hv k e m c : String) : String :=
  ts ++ "," ++ si ++ "," ++ di ++ "," ++ toString sp ++ "," ++
    toString dp ++ "," ++ t ++ ",\"" ++ pr ++ "\"," ++ h ++ ",\"" ++
    hv ++ "\",\"" ++ k ++ "\",\"" ++ e ++ "\",\"" ++ m ++ "\",\"" ++
    c ++ "\""

/-- Embedding of `csv_logging(record)` (hassh.py lines 369-396): the
branches test for the `hassh` and `hasshServer` keys; a record with
neither key reaches the final `format` call with `hasshType` and the
other row variables unassigned and raises `UnboundLocalError`, embedded
here as `none`. -/
def csv_logging : Record → Option String
  | .clientFP r =>
    some (csvRow r.timestamp r.sourceIp r.destinationIp r.sourcePort
      r.destinationPort "client" (pyStr r.client) r.hassh
      r.hasshAlgorithms r.ckex r.ceacts r.cmacts r.ccacts)
  | .serverFP r =>
    some (csvRow r.timestamp r.sourceIp r.destinationIp r.sourcePort
      r.destinationPort "server" (pyStr r.server) r.hasshServer
      r.hasshServerAlgorithms r.skex r.seastc r.smastc r.scastc)
  | .event _ => none

/-- The CSV output loop of `main` (hassh.py lines 471-475): rows are
written until `csv_logging` raises; the exception is unhandled there, so
the loop (and the delimited output) stops at the first record that is not
a fingerprint record. -/
def mainCsvRows : List Record → List String
  | [] => []
  | r :: rest =>
    match csv_logging r with
    | some row => row :: mainCsvRows rest
    | none => []

/-- The full delimited output stream for a batch of results: the header
row, then the rows `main` manages to write. -/
def delimitedStream (results : List Record) : List String :=
  csvHeader :: mainCsvRows results

/-! ## Helper lemmas -/

theorem pyJoin_four (a b c d : String) :
    pyJoin ";" [a, b, c, d] = a ++ ";" ++ b ++ ";" ++ c ++ ";" ++ d := by
  simp [pyJoin, String.append_assoc]

theorem mem_processPcapAux {fp : String} {r : Record} :
    ∀ (pkts : List Packet) (d : Dict), r ∈ processPcapAux fp pkts d →
      ∃ p ∈ pkts, ∃ d2, r ∈ (stepPacket fp d2 p).2 := by
  intro pkts
  induction pkts with
  | nil => intro d h; simp [processPcapAux] at h
  | cons p rest ih =>
    intro d h
    by_cases hf : p.faulty = true
    · simp [processPcapAux, hf] at h
    · simp only [processPcapAux, hf, if_false, Bool.false_eq_true,
        if_neg, List.mem_append] at h
      rcases h with h | h
      · exact ⟨p, List.mem_cons_self p rest, d, h⟩
      · obtain ⟨q, hq, d2, hr2⟩ := ih _ h
        exact ⟨q, List.mem_cons_of_mem _ hq, d2, hr2⟩

theorem processPcapAux_takeWhile (fp : String) :
    ∀ (pkts : List Packet) (d : Dict),
      processPcapAux fp pkts d =
        processPcapAux fp (pkts.takeWhile (fun p => !p.faulty)) d := by
  intro pkts
  induction pkts with
  | nil => intro d; rfl
  | cons p rest ih =>
    intro d
    by_cases hf : p.faulty = true
    · simp [processPcapAux, hf, List.takeWhile_cons]
    · simp [processPcapAux, hf, List.takeWhile_cons, ih]

theorem step_fingerprint_not_retrans (fp : String) (d : Dict) (p : Packet)
    (r : Record) (hr : r ∈ (stepPacket fp d p).2)
    (hfp : isFingerprint r = true) :
    (p.analysis_retransmission || p.analysis_spurious_retransmission) = false := by
  simp only [stepPacket] at hr
  split_ifs at hr with h1 h2 h3 h4 h5
  · simp at hr
  · simp at hr
  · simp only [List.mem_singleton] at hr
    rw [hr] at hfp
    simp [isFingerprint] at hfp
  · exact Bool.not_eq_true _ ▸ h3
  · exact Bool.not_eq_true _ ▸ h3
  · simp at hr

theorem mainCsvRows_eq : ∀ rs : List Record,
    mainCsvRows rs =
      (rs.takeWhile fun r => isFingerprint r).filterMap csv_logging := by
  intro rs
  induction rs with
  | nil => rfl
  | cons r rest ih =>
    cases r with
    | clientFP c =>
      simp [mainCsvRows, csv_logging, List.takeWhile_cons, isFingerprint, ih]
    | serverFP s =>
      simp [mainCsvRows, csv_logging, List.takeWhile_cons, isFingerprint, ih]
    | event e =>
      simp [mainCsvRows, csv_logging, List.takeWhile_cons, isFingerprint]

theorem mainCsvRows_length : ∀ rs : List Record,
    (mainCsvRows rs).length =
      (rs.takeWhile fun r => isFingerprint r).length := by
  intro rs
  induction rs with
  | nil => rfl
  | cons r rest ih =>
    cases r with
    | clientFP c =>
      simp [mainCsvRows, csv_logging, List.takeWhile_cons, isFingerprint, ih]
    | serverFP s =>
      simp [mainCsvRows, csv_logging, List.takeWhile_cons, isFingerprint, ih]
    | event e =>
      simp [mainCsvRows, csv_logging, List.takeWhile_cons, isFingerprint]

/-! ## Concrete packets used as witnesses and counterexamples -/

/-- A plain client-side KEXINIT packet (source port 2222, destination
port 22, no banner, no retransmission flag). -/
def basePkt : Packet :=
  { highest_layer := "SSH"
    protocol := none
    message_code := some "20"
    kex_algorithms := some "curve25519-sha256"
    encryption_algorithms_client_to_server := some "aes128-ctr"
    mac_algorithms_client_to_server := some "hmac-sha2-256"
    compression_algorithms_client_to_server := some "none"
    encryption_algorithms_server_to_client := none
    mac_algorithms_server_to_client := none
    compression_algorithms_server_to_client := none
    languages_client_to_server := none
    languages_server_to_client := none
    ip_src := "1.2.3.4"
    ip_dst := "5.6.7.8"
    tcp_srcport := 2222
    tcp_dstport := 22
    analysis_retransmission := false
    analysis_spurious_retransmission := false
    sniff_time := "2018-09-01T00:00:00"
    faulty := false }

/-- The same KEXINIT packet flagged as a TCP retransmission. -/
def retransPkt : Packet := { basePkt with analysis_retransmission := true }

/-- The same KEXINIT packet whose processing raises an exception. -/
def faultyPkt : Packet := { basePkt with faulty := true }

/-- The same KEXINIT packet with equal source and destination ports. -/
def eqPortPkt : Packet := { basePkt with tcp_dstport := 2222 }

/-- A protocol-banner packet of the flow 1.2.3.4:2222 -> 5.6.7.8:22. -/
def bannerPkt : Packet :=
  { basePkt with protocol := some "SSH-2.0-OpenSSH_8.1", message_code := none }

/-- A client KEXINIT packet of a different flow (destination port 2022)
than `bannerPkt`. -/
def kexPkt2022 : Packet := { basePkt with tcp_dstport := 2022 }

/-- A KEXINIT packet with every optional SSH list field absent. -/
def nonePkt : Packet :=
  { basePkt with
    kex_algorithms := none
    encryption_algorithms_client_to_server := none
    mac_algorithms_client_to_server := none
    compression_algorithms_client_to_server := none }

/-- Evaluation of the loop body on the single plain KEXINIT packet. -/
theorem process_basePkt :
    process_pcap_file "all" [basePkt] =
      [Record.clientFP (client_hassh basePkt [])] := rfl

/-! ## Claims -/

/-- C1: for every KEXINIT packet processed into a fingerprint, the
fingerprint input string is the four own-direction algorithm-list fields
joined with a literal semicolon in the order kex;enc;mac;cmp (empty
fields kept as empty segments, four empty fields giving ";;;"), and the
digest is the lowercase 32-character hex MD5 of the UTF-8 bytes of that
input string, for the client and the server role alike. -/
theorem claim_C1 (p : Packet) (d : Dict) :
    (client_hassh p d).hasshAlgorithms =
        (client_hassh p d).ckex ++ ";" ++ (client_hassh p d).ceacts ++ ";" ++
          (client_hassh p d).cmacts ++ ";" ++ (client_hassh p d).ccacts ∧
    (client_hassh p d).hassh = md5hex (client_hassh p d).hasshAlgorithms ∧
    (client_hassh p d).hassh.length = 32 ∧
    (∀ c ∈ (client_hassh p d).hassh.data, isLowerHex c = true) ∧
    ((client_hassh p d).ckex = "" ∧ (client_hassh p d).ceacts = "" ∧
      (client_hassh p d).cmacts = "" ∧ (client_hassh p d).ccacts = "" →
        (client_hassh p d).hasshAlgorithms = ";;;") ∧
    (server_hassh p d).hasshServerAlgorithms =
        (server_hassh p d).skex ++ ";" ++ (server_hassh p d).seastc ++ ";" ++
          (server_hassh p d).smastc ++ ";" ++ (server_hassh p d).scastc ∧
    (server_hassh p d).hasshServer =
        md5hex (server_hassh p d).hasshServerAlgorithms ∧
    (server_hassh p d).hasshServer.length = 32 ∧
    (∀ c ∈ (server_hassh p d).hasshServer.data, isLowerHex c = true) ∧
    ((server_hassh p d).skex = "" ∧ (server_hassh p d).seastc = "" ∧
      (server_hassh p d).smastc = "" ∧ (server_hassh p d).scastc = "" →
        (server_hassh p d).hasshServerAlgorithms = ";;;") := by
  refine ⟨pyJoin_four _ _ _ _, rfl, md5hex_length _, md5hex_lower _, ?_,
    pyJoin_four _ _ _ _, rfl, md5hex_length _, md5hex_lower _, ?_⟩
  · intro h
    obtain ⟨h1, h2, h3, h4⟩ := h
    have e1 : p.kex_algorithms.getD "" = "" := h1
    have e2 : p.encryption_algorithms_client_to_server.getD "" = "" := h2
    have e3 : p.mac_algorithms_client_to_server.getD "" = "" := h3
    have e4 : p.compression_algorithms_client_to_server.getD "" = "" := h4
    show pyJoin ";" [p.kex_algorithms.getD "",
      p.encryption_algorithms_client_to_server.getD "",
      p.mac_algorithms_client_to_server.getD "",
      p.compression_algorithms_client_to_server.getD ""] = ";;;"
    rw [e1, e2, e3, e4]
    rfl
  · intro h
    obtain ⟨h1, h2, h3, h4⟩ := h
    have e1 : p.kex_algorithms.getD "" = "" := h1
    have e2 : p.encryption_algorithms_server_to_client.getD "" = "" := h2
    have e3 : p.mac_algorithms_server_to_client.getD "" = "" := h3
    have e4 : p.compression_algorithms_server_to_client.getD "" = "" := h4
    show pyJoin ";" [p.kex_algorithms.getD "",
      p.encryption_algorithms_server_to_client.getD "",
      p.mac_algorithms_server_to_client.getD "",
      p.compression_algorithms_server_to_client.getD ""] = ";;;"
    rw [e1, e2, e3, e4]
    rfl

/-- Witness for C1 at a concrete packet: the all-fields-absent packet
yields the input string ";;;", and the digest of the plain packet has 32
lowercase hex characters. -/
theorem claim_C1_witness :
    (client_hassh nonePkt []).hasshAlgorithms = ";;;" ∧
    (client_hassh basePkt []).hassh.length = 32 ∧
    (server_hassh nonePkt []).hasshServerAlgorithms = ";;;" := by
  refine ⟨(claim_C1 nonePkt []).2.2.2.2.1 ⟨rfl, rfl, rfl, rfl⟩,
    (claim_C1 basePkt []).2.2.1,
    (claim_C1 nonePkt []).2.2.2.2.2.2.2.2.2 ⟨rfl, rfl, rfl, rfl⟩⟩

/-- C2: with role filter `all`, a non-retransmitted KEXINIT packet is
classified purely by the parsed ports: source port greater than
destination port yields exactly a client fingerprint record, smaller
yields exactly a server fingerprint record, and equal ports yield no
record at all. -/
theorem claim_C2 (d : Dict) (p : Packet)
    (h1 : p.highest_layer = "SSH") (h2 : p.message_code = some "20")
    (h3 : p.analysis_retransmission = false)
    (h4 : p.analysis_spurious_retransmission = false) :
    (p.tcp_dstport < p.tcp_srcport →
      (stepPacket "all" d p).2 =
        [Record.clientFP (client_hassh p (updBanner d p))]) ∧
    (p.tcp_srcport < p.tcp_dstport →
      (stepPacket "all" d p).2 =
        [Record.serverFP (server_hassh p (updBanner d p))]) ∧
    (p.tcp_srcport = p.tcp_dstport → (stepPacket "all" d p).2 = []) := by
  refine ⟨fun hp => ?_, fun hp => ?_, fun hp => ?_⟩
  · simp [stepPacket, h1, h2, h3, h4, hp]
  · have hp2 : ¬ p.tcp_dstport < p.tcp_srcport := Nat.lt_asymm hp
    simp [stepPacket, h1, h2, h3, h4, hp, hp2]
  · have hp2 : ¬ p.tcp_dstport < p.tcp_srcport := by omega
    have hp3 : ¬ p.tcp_srcport < p.tcp_dstport := by omega
    simp [stepPacket, h1, h2, h3, h4, hp2, hp3]

/-- Witness for C2 at a concrete packet: 2222 -> 22 gives a client
record. -/
theorem claim_C2_witness :
    (stepPacket "all" [] basePkt).2 =
      [Record.clientFP (client_hassh basePkt (updBanner [] basePkt))] :=
  (claim_C2 [] basePkt rfl rfl rfl rfl).1 (by decide)

/-- C3: a KEXINIT packet carrying a retransmission or spurious
retransmission analysis flag yields exactly one retransmission event —
for every role filter and every port pair, i.e. before the direction
classification and the fingerprint computation ever run — and no
fingerprint record of a bounded replay ever comes from a packet whose
retransmission check fired. -/
theorem claim_C3 :
    (∀ (fp : String) (d : Dict) (p : Packet),
      p.highest_layer = "SSH" → p.message_code = some "20" →
      (p.analysis_retransmission || p.analysis_spurious_retransmission) = true →
        (stepPacket fp d p).2 = [Record.event (event_log p)]) ∧
    (∀ (fp : String) (pkts : List Packet) (r : Record),
      r ∈ process_pcap_file fp pkts → isFingerprint r = true →
        ∃ p ∈ pkts, ∃ d2, r ∈ (stepPacket fp d2 p).2 ∧
          (p.analysis_retransmission ||
            p.analysis_spurious_retransmission) = false) := by
  constructor
  · intro fp d p h1 h2 h3
    simp [stepPacket, h1, h2, h3]
  · intro fp pkts r hr hfp
    obtain ⟨p, hp, d2, hr2⟩ := mem_processPcapAux pkts [] hr
    exact ⟨p, hp, d2, hr2, step_fingerprint_not_retrans fp d2 p r hr2 hfp⟩

/-- Witness for C3 at concrete inputs: the flagged packet gives exactly
the event, and the record produced from the unflagged packet traces back
to a packet whose retransmission check did not fire. -/
theorem claim_C3_witness :
    (stepPacket "all" [] retransPkt).2 =
      [Record.event (event_log retransPkt)] ∧
    ∃ p ∈ [basePkt], ∃ d2,
      Record.clientFP (client_hassh basePkt []) ∈ (stepPacket "all" d2 p).2 ∧
      (p.analysis_retransmission ||
        p.analysis_spurious_retransmission) = false := by
  constructor
  · exact claim_C3.1 "all" [] retransPkt rfl rfl rfl
  · exact claim_C3.2 "all" [basePkt] (Record.clientFP (client_hassh basePkt []))
      (process_basePkt ▸ List.mem_singleton.mpr rfl) rfl

/-- C4: two packets with the identical nominal flow key do correlate and
the cache is last-write-wins; but the claim that a KEXINIT packet with no
prior banner for its exact flow key yields an empty protocol field fails:
the code keys the cache on (srcIP, srcPort, dstIP, srcPort), so a banner
of the flow 1.2.3.4:2222 -> 5.6.7.8:22 is attached to a KEXINIT of the
different flow 1.2.3.4:2222 -> 5.6.7.8:2022. This theorem evaluates the
code at that failing input. -/
theorem claim_C4 :
    flowKeySpec bannerPkt ≠ flowKeySpec kexPkt2022 ∧
    (process_pcap_file "all" [bannerPkt, kexPkt2022]).map recProtocol =
      [some "SSH-2.0-OpenSSH_8.1"] := by
  exact ⟨by decide, rfl⟩

/-- C5: the claim says the fourth component of the flow key is the
packet's destination port; the code assigns `dport = packet.tcp.srcport`
in every path, so the key it builds repeats the source port and differs
from the spec's FlowKey whenever the two ports differ. -/
theorem claim_C5 :
    mkKeyCode kexPkt2022 = "1.2.3.4:2222_5.6.7.8:2222" ∧
    flowKeySpec kexPkt2022 = "1.2.3.4:2222_5.6.7.8:2022" ∧
    mkKeyCode kexPkt2022 ≠ flowKeySpec kexPkt2022 := by
  exact ⟨rfl, rfl, by decide⟩

/-- C6 counterexample: the claim says a per-packet fault is recovered and
replay continues with the next packet; but with a faulting packet in
front of a good KEXINIT packet the replay returns no record at all, while
the good packet alone yields one — the `try` wraps the whole loop, so the
fault aborts the replay instead of skipping one packet. -/
theorem claim_C6_counterexample :
    (process_pcap_file "all" [faultyPkt, basePkt]).length = 0 ∧
    (process_pcap_file "all" [basePkt]).length = 1 := ⟨rfl, rfl⟩

/-- C6 amended: when a fault occurs while processing one packet of the
input sequence, the fault is caught (and logged once), no record is
emitted for that packet, and the replay stops: the returned ordered list
is exactly the records of the longest fault-free prefix of the source. -/
theorem claim_C6_amended (fprint : String) (pkts : List Packet) :
    process_pcap_file fprint pkts =
      process_pcap_file fprint (pkts.takeWhile fun p => !p.faulty) :=
  processPcapAux_takeWhile fprint pkts []

/-- C7 counterexample: a batch holding a retransmission event followed by
a fingerprint record yields a delimited stream of just the header — the
fingerprint record after the event gets no row, so the stream is not
header plus one row per fingerprint record. -/
theorem claim_C7_counterexample :
    delimitedStream (process_pcap_file "all" [retransPkt, basePkt]) =
      [csvHeader] ∧
    (process_pcap_file "all" [retransPkt, basePkt]).countP
      (fun r => isFingerprint r) = 1 := ⟨rfl, rfl⟩

/-- C7 amended: retransmission events never yield a delimited row
(`csv_logging` fails on them, uncaught in `main`), so the delimited
stream is the header row plus one row per fingerprint record of the
longest fingerprint-only prefix of the batch; an event aborts the CSV
loop, dropping the rows of every later record as well. -/
theorem claim_C7_amended (results : List Record) :
    delimitedStream results =
      csvHeader ::
        (results.takeWhile fun r => isFingerprint r).filterMap csv_logging ∧
    (mainCsvRows results).length =
      (results.takeWhile fun r => isFingerprint r).length ∧
    ∀ e : EventRecord, csv_logging (Record.event e) = none := by
  refine ⟨?_, mainCsvRows_length results, fun _ => rfl⟩
  show csvHeader :: mainCsvRows results = _
  rw [mainCsvRows_eq]

/-- C8 counterexample: a KEXINIT packet that passes the message-type
filter, is not retransmitted, and has equal source and destination ports
produces neither a fingerprint record nor a retransmission event,
refuting "never zero". -/
theorem claim_C8_counterexample :
    eqPortPkt.highest_layer = "SSH" ∧ eqPortPkt.message_code = some "20" ∧
    eqPortPkt.analysis_retransmission = false ∧
    eqPortPkt.analysis_spurious_retransmission = false ∧
    (stepPacket "all" [] eqPortPkt).2 = [] := ⟨rfl, rfl, rfl, rfl, rfl⟩

/-- C8 amended: with role filter `all`, a KEXINIT packet passing the
message-type filter produces at most one of a fingerprint record or a
retransmission event — never both — and produces zero exactly when it is
not retransmitted and its source and destination ports are equal. -/
theorem claim_C8_amended (d : Dict) (p : Packet)
    (h1 : p.highest_layer = "SSH") (h2 : p.message_code = some "20") :
    (stepPacket "all" d p).2.length ≤ 1 ∧
    ((stepPacket "all" d p).2 = [] ↔
      (p.analysis_retransmission || p.analysis_spurious_retransmission)
          = false ∧
        p.tcp_srcport = p.tcp_dstport) := by
  by_cases hr : (p.analysis_retransmission ||
      p.analysis_spurious_retransmission) = true
  · simp [stepPacket, h1, h2, hr]
  · have hr2 : (p.analysis_retransmission ||
        p.analysis_spurious_retransmission) = false := by
      simpa using hr
    rcases Nat.lt_trichotomy p.tcp_srcport p.tcp_dstport with h | h | h
    · have ha : ¬ p.tcp_dstport < p.tcp_srcport := Nat.lt_asymm h
      have hne : p.tcp_srcport ≠ p.tcp_dstport := Nat.ne_of_lt h
      simp [stepPacket, h1, h2, hr2, h, ha, hne]
    · have ha : ¬ p.tcp_dstport < p.tcp_srcport := by omega
      have hb : ¬ p.tcp_srcport < p.tcp_dstport := by omega
      simp [stepPacket, h1, h2, hr2, h, ha, hb]
    · have hne : p.tcp_srcport ≠ p.tcp_dstport := by omega
      simp [stepPacket, h1, h2, hr2, h, hne]

/-- Witness for C8 amended at a concrete packet. -/
theorem claim_C8_witness :
    (stepPacket "all" [] basePkt).2.length ≤ 1 ∧
    ((stepPacket "all" [] basePkt).2 = [] ↔
      (basePkt.analysis_retransmission ||
          basePkt.analysis_spurious_retransmission) = false ∧
        basePkt.tcp_srcport = basePkt.tcp_dstport) :=
  claim_C8_amended [] basePkt rfl rfl

/-- C9 counterexample: the record produced for a KEXINIT packet with no
prior banner carries a null protocol field (`record["client"]` is
`None`), not an empty string, refuting "all ... protocol-string fields
... are non-null strings". -/
theorem claim_C9_counterexample :
    (process_pcap_file "all" [basePkt]).map recProtocol = [none] ∧
    (process_pcap_file "all" [basePkt]).countP
      (fun r => isFingerprint r) = 1 := ⟨rfl, rfl⟩

/-- C9 amended: every SSH list field requested from the packet defaults
to the empty string when absent — all algorithm-list and language-list
fields of both record shapes are plain strings — while the protocol field
is not a defaulted packet field: it is the banner-cache lookup and is
null exactly when the cache has no entry for the packet's key. -/
theorem claim_C9_amended (p : Packet) (d : Dict) :
    (p.kex_algorithms = none →
      (client_hassh p d).ckex = "" ∧ (server_hassh p d).skex = "") ∧
    (p.encryption_algorithms_client_to_server = none →
      (client_hassh p d).ceacts = "" ∧ (server_hassh p d).seacts = "") ∧
    (p.mac_algorithms_client_to_server = none →
      (client_hassh p d).cmacts = "" ∧ (server_hassh p d).smacts = "") ∧
    (p.compression_algorithms_client_to_server = none →
      (client_hassh p d).ccacts = "" ∧ (server_hassh p d).scacts = "") ∧
    (p.encryption_algorithms_server_to_client = none →
      (client_hassh p d).ceastc = "" ∧ (server_hassh p d).seastc = "") ∧
    (p.mac_algorithms_server_to_client = none →
      (client_hassh p d).cmastc = "" ∧ (server_hassh p d).smastc = "") ∧
    (p.compression_algorithms_server_to_client = none →
      (client_hassh p d).ccastc = "" ∧ (server_hassh p d).scastc = "") ∧
    (p.languages_client_to_server = none →
      (client_hassh p d).clcts = "" ∧ (server_hassh p d).slcts = "") ∧
    (p.languages_server_to_client = none →
      (client_hassh p d).clstc = "" ∧ (server_hassh p d).slstc = "") ∧
    (client_hassh p d).client = List.lookup (mkKeyCode p) d ∧
    (server_hassh p d).server = List.lookup (mkKeyCode p) d := by
  have gd : ∀ o : Option String, o = none → o.getD "" = "" := by
    intro o h
    rw [h]
    rfl
  exact ⟨fun h => ⟨gd _ h, gd _ h⟩, fun h => ⟨gd _ h, gd _ h⟩,
    fun h => ⟨gd _ h, gd _ h⟩, fun h => ⟨gd _ h, gd _ h⟩,
    fun h => ⟨gd _ h, gd _ h⟩, fun h => ⟨gd _ h, gd _ h⟩,
    fun h => ⟨gd _ h, gd _ h⟩, fun h => ⟨gd _ h, gd _ h⟩,
    fun h => ⟨gd _ h, gd _ h⟩, rfl, rfl⟩

/-- Witness for C9 amended at the packet with every optional field
absent. -/
theorem claim_C9_witness :
    ((client_hassh nonePkt []).ckex = "" ∧
      (server_hassh nonePkt []).skex = "") ∧
    ((client_hassh nonePkt []).ceacts = "" ∧
      (server_hassh nonePkt []).seacts = "") ∧
    ((client_hassh nonePkt []).ceastc = "" ∧
      (server_hassh nonePkt []).seastc = "") ∧
    ((client_hassh nonePkt []).clcts = "" ∧
      (server_hassh nonePkt []).slcts = "") ∧
    (client_hassh nonePkt []).client = none := by
  have h := claim_C9_amended nonePkt []
  refine ⟨h.1 rfl, h.2.1 rfl, h.2.2.2.2.1 rfl, h.2.2.2.2.2.2.2.1 rfl, ?_⟩
  rw [h.2.2.2.2.2.2.2.2.2.1]
  rfl

/-- C10: `csv_logging` is partial — a record with neither a `hassh` key
nor a `hasshServer` key (a retransmission event) makes it fail instead
of returning a row, the failure is unhandled in the CSV loop of `main`
(killing the whole loop), and it returns a well-formed row exactly for
client and server fingerprint records. -/
theorem claim_C10 :
    (∀ rec : Record, isFingerprint rec = false → csv_logging rec = none) ∧
    (∀ (e : EventRecord) (rest : List Record),
      mainCsvRows (Record.event e :: rest) = []) ∧
    (∀ r : ClientRecord, csv_logging (Record.clientFP r) =
      some (csvRow r.timestamp r.sourceIp r.destinationIp r.sourcePort
        r.destinationPort "client" (pyStr r.client) r.hassh
        r.hasshAlgorithms r.ckex r.ceacts r.cmacts r.ccacts)) ∧
    (∀ r : ServerRecord, csv_logging (Record.serverFP r) =
      some (csvRow r.timestamp r.sourceIp r.destinationIp r.sourcePort
        r.destinationPort "server" (pyStr r.server) r.hasshServer
        r.hasshServerAlgorithms r.skex r.seastc r.smastc r.scastc)) := by
  refine ⟨?_, fun _ _ => rfl, fun _ => rfl, fun _ => rfl⟩
  intro rec h
  cases rec with
  | clientFP r => simp [isFingerprint] at h
  | serverFP r => simp [isFingerprint] at h
  | event e => rfl

/-- Witness for C10 at a concrete event record. -/
theorem claim_C10_witness :
    csv_logging (Record.event (event_log retransPkt)) = none :=
  claim_C10.1 (Record.event (event_log retransPkt)) rfl

end Hassh
